import Mathlib

/-!
Shallow embedding of the `manyhow` crate's diagnostic model and entry-point
orchestration (src/error.rs, src/lib.rs, src/parse_to_tokens.rs).

Token streams are modelled as lists of opaque tokens; the only token shape the
library itself produces is the `::core::compile_error! {msg}` construct emitted
by diagnostic rendering, modelled as a dedicated constructor carrying the two
anchoring spans and the rendered message.  Spans are opaque handles, modelled
as naturals with `0` standing for `Span::call_site()`.  Code that can panic
(the `Display` impl for `ErrorMessage` demands at least one line from each
attachment) is modelled with `Option`.
-/

set_option autoImplicit false

namespace Manyhow

/-- Source position handle (`proc_macro2::Span`), opaque to the library. -/
abbrev Span := Nat

/-- Model of `Span::call_site()`. -/
def callSite : Span := 0

/-- One lexical token.  `raw` covers all externally supplied tokens;
`compileError first last msg` models the `::core::compile_error! {msg}`
construct produced by `ToTokensError for ErrorMessage`, whose opening group is
anchored at `first` and whose literal payload at `last`. -/
inductive Tok where
  | raw (s : String)
  | compileError (first last : Span) (msg : String)
  deriving DecidableEq

/-- A `proc_macro2::TokenStream`: an ordered token sequence. -/
abbrev TokenStream := List Tok

def newline : Char := Char.ofNat 10

def carriageReturn : Char := Char.ofNat 13

def spaceChar : Char := Char.ofNat 32

/-- A run of `n` spaces (the `{1:2$}` padding in the `Display` impl). -/
def spaces (n : Nat) : String := String.mk (List.replicate n spaceChar)

/-- Helper for `rustLines`: walk the characters, accumulator holds the current
line reversed.  On a newline the line is emitted, with one carriage return
stripped from its end (so `\r\n` counts as a line ending, as in Rust). -/
def rustLinesGo : List Char → List Char → List String
  | [], acc => if acc.isEmpty then [] else [String.mk acc.reverse]
  | c :: rest, acc =>
    if c = newline then
      let acc := if acc.head? = some carriageReturn then acc.tail else acc
      String.mk acc.reverse :: rustLinesGo rest []
    else
      rustLinesGo rest (c :: acc)

/-- Model of Rust's `str::lines`: splits at `\n` or `\r\n`; a trailing line
ending produces no extra empty line; the empty string has no lines. -/
def rustLines (s : String) : List String := rustLinesGo s.data []

/-- Model of Rust's `str::trim_end`: drop trailing whitespace. -/
def trimEnd (s : String) : String :=
  String.mk ((s.data.reverse.dropWhile Char.isWhitespace).reverse)

/-- A single error message with optional labelled attachments
(`manyhow::ErrorMessage`).  The `span: Range<Span>` field is split in two. -/
structure ErrorMessage where
  spanStart : Span
  spanEnd : Span
  msg : String
  attachments : List (String × String)
  deriving DecidableEq

/-- `ErrorMessage::new` (the message is eagerly stringified; here it already
is a string). -/
def ErrorMessage.new (first last : Span) (msg : String) : ErrorMessage :=
  ⟨first, last, msg, []⟩

/-- `ErrorMessage::call_site`. -/
def ErrorMessage.callSite (msg : String) : ErrorMessage :=
  ErrorMessage.new Manyhow.callSite Manyhow.callSite msg

/-- `ErrorMessage::attachment`: append a `(label, text)` pair, builder style. -/
def ErrorMessage.attachment (m : ErrorMessage) (label text : String) : ErrorMessage :=
  { m with attachments := m.attachments ++ [(label, text)] }

/-- Concatenation of a sequence of written fragments (the successive
`write!` calls of a `Display` impl). -/
def strConcat : List String → String
  | [] => ""
  | s :: tl => s ++ strConcat tl

/-- One rendered attachment block: the `writeln!(f, "  = {label}: {..}")` line
followed by the continuation lines `writeln!(f, "    {1:2$}  {}", line, "",
label.len())`, i.e. four literal spaces, `label.length` padding spaces, two
literal spaces, then the line. -/
def renderAttachment (label first : String) (rest : List String) : String :=
  "  = " ++ label ++ ": " ++ first ++ "\n" ++
    strConcat (rest.map (fun line => "    " ++ spaces label.length ++ "  " ++ line ++ "\n"))

/-- The attachment loop of `Display for ErrorMessage`.  `none` models the
panic of `attachment.next().expect("should return at least one line")` when an
attachment text has no lines (only possible for the empty string). -/
def renderAttachments : List (String × String) → Option String
  | [] => some ("")
  | (label, text) :: tl =>
    match rustLines text with
    | [] => none
    | first :: rest =>
      match renderAttachments tl with
      | none => none
      | some r => some (renderAttachment label first rest ++ r)

/-- `Display for ErrorMessage` / `ErrorMessage::to_string`: the right-trimmed
primary message, a blank line if any attachment exists, then the attachment
blocks.  `none` models the panic on an attachment without lines. -/
def ErrorMessage.render (m : ErrorMessage) : Option String :=
  (renderAttachments m.attachments).map
    (fun a => trimEnd m.msg ++ (if m.attachments.isEmpty then "" else "\n\n") ++ a)

/-- Modelled from the claim wording (for comparison with the code's
`renderAttachment`): an attachment block whose continuation lines are
"indented by label length + 2 leading spaces + 2 for the `= ` marker", i.e.
`label.length + 4` spaces, aligning under the colon. -/
def claimRenderAttachment (label first : String) (rest : List String) : String :=
  "  = " ++ label ++ ": " ++ first ++ "\n" ++
    strConcat (rest.map (fun line => spaces (label.length + 2 + 2) ++ line ++ "\n"))

/-- The attachment loop as the claim describes it (differing from the code's
only in the continuation indent). -/
def claimRenderAttachments : List (String × String) → Option String
  | [] => some ("")
  | (label, text) :: tl =>
    match rustLines text with
    | [] => none
    | first :: rest =>
      match claimRenderAttachments tl with
      | none => none
      | some r => some (claimRenderAttachment label first rest ++ r)

/-- The full rendering as the claim describes it. -/
def claimRender (m : ErrorMessage) : Option String :=
  (claimRenderAttachments m.attachments).map
    (fun a => trimEnd m.msg ++ (if m.attachments.isEmpty then "" else "\n\n") ++ a)

/-- A boxed `dyn ToTokensError` value.  Following the design notes, the open
trait-object collection is modelled as a closed variant type: an
`ErrorMessage`, the zero-information `SilentError`, an externally-sourced
error already rendered to tokens (`syn::Error` and friends), or a nested
`Error` collection (an `Error` itself implements `ToTokensError`). -/
inductive Diag where
  | message (m : ErrorMessage)
  | silent
  | external (ts : TokenStream)
  | nested (es : List Diag)

/-- `manyhow::Error`: an ordered sequence of boxed diagnostic-renderables. -/
abbrev Error := List Diag

mutual

/-- `ToTokensError::to_tokens` for one boxed value.  An `ErrorMessage` renders
to a single spanned `compile_error!` construct (panicking, hence `none`, when
its string rendering panics); `SilentError` renders to nothing; an external
error appends its own token form; a nested `Error` concatenates its members. -/
def Diag.toTokens : Diag → Option TokenStream
  | .message m => (m.render).map (fun s => [Tok.compileError m.spanStart m.spanEnd s])
  | .silent => some []
  | .external ts => some ts
  | .nested es => errToTokens es

/-- `ToTokensError for Error`: concatenation of each member's token form, in
order, with no separators. -/
def errToTokens : List Diag → Option TokenStream
  | [] => some []
  | d :: tl =>
    match d.toTokens, errToTokens tl with
    | some a, some b => some (a ++ b)
    | _, _ => none

end

/-- `ToTokensError for Error` (named entry point on the alias). -/
def Error.toTokens (e : Error) : Option TokenStream := errToTokens e

/-- The inherent `Error::from(impl ToTokensError)`: a one-element collection.
This (not the trait `From`) is what `MacroOutput::convert`'s
`map_err(Error::from)` resolves to. -/
def Error.fromToTokensError (d : Diag) : Error := [d]

/-- `From<SilentError> for Error`: the empty collection. -/
def Error.fromSilentError : Error := []

/-- `From<ErrorMessage> for Error` (delegates to the inherent `from`). -/
def Error.fromErrorMessage (m : ErrorMessage) : Error := [Diag.message m]

/-- `Error::push`: append one boxed diagnostic-renderable. -/
def Error.push (e : Error) (d : Diag) : Error := e ++ [d]

/-- `Extend for Error`: append each element, preserving order. -/
def Error.extendErr (e : Error) (ds : List Diag) : Error := e ++ ds

/-- `manyhow::Emitter`: a mutable sink of boxed diagnostic-renderables. -/
structure Emitter where
  diags : List Diag

/-- `Emitter::new`. -/
def Emitter.new : Emitter := ⟨[]⟩

/-- `Emitter::emit`: append one diagnostic. -/
def Emitter.emit (e : Emitter) (d : Diag) : Emitter := ⟨e.diags ++ [d]⟩

/-- `Emitter::is_empty`. -/
def Emitter.isEmpty (e : Emitter) : Bool := e.diags.isEmpty

/-- `Emitter::clear`. -/
def Emitter.clear (_e : Emitter) : Emitter := ⟨[]⟩

/-- `Emitter::to_tokens` (crate-private): render every collected diagnostic,
in insertion order. -/
def Emitter.toTokens (e : Emitter) : Option TokenStream := errToTokens e.diags

/-- `Emitter::into_result(&mut self)`: `Ok(())` if empty, otherwise
`Err(Error(mem::take(&mut self.0)))`.  Returns the result together with the
post-state of the emitter (`mem::take` leaves it empty). -/
def Emitter.intoResult (e : Emitter) : Except Error Unit × Emitter :=
  if e.isEmpty then (Except.ok (), e) else (Except.error e.diags, ⟨[]⟩)

/-- A value of some type implementing `MacroOutput`: either a bare token
stream (`impl<T: AnyTokenStream> MacroOutput for T`) or a `Result` whose error
is one boxed `ToTokensError` value and whose success side again implements
`MacroOutput` (`impl<T: MacroOutput, E: ToTokensError> MacroOutput for
Result<T, E>`). -/
inductive MacroOut where
  | stream (ts : TokenStream)
  | result (r : Except Diag MacroOut)

/-- `MacroOutput::convert`: a bare stream is `Ok`; a `Result` is mapped with
the inherent `Error::from` on the error side (`self.map_err(Error::from)`) and
recursively converted on the success side (`.and_then(MacroOutput::convert)`). -/
def MacroOut.convert : MacroOut → Except Error TokenStream
  | .stream ts => Except.ok ts
  | .result (Except.error e) => Except.error (Error.fromToTokensError e)
  | .result (Except.ok t) => t.convert

/-- A handler body as seen by the plain entry points: it receives the input
stream(s), the dummy buffer and the emitter (the latter two by mutable
reference, hence also returned), and produces a `MacroOutput` value.  The
trait-based dispatch (`FunctionMacroHandler` etc.) only selects which of the
trailing parameters the closure sees; the normalized shape is this one. -/
abbrev FnBody := TokenStream → TokenStream → Emitter → MacroOut × TokenStream × Emitter

abbrev AttrBody := TokenStream → TokenStream → TokenStream → Emitter → MacroOut × TokenStream × Emitter

/-- `manyhow::function`: seed the dummy from the input iff `input_as_dummy`,
run the body with a fresh emitter, convert its output; on success the dummy is
dropped, on failure the rendered error is appended to the (possibly mutated)
dummy; the emitter's remaining diagnostics are always appended last. -/
def function (input : TokenStream) (inputAsDummy : Bool) (body : FnBody) :
    Option TokenStream :=
  match body input (if inputAsDummy then input else []) Emitter.new with
  | (output, tokens, emitter) =>
    match output.convert with
    | Except.ok t =>
      match emitter.toTokens with
      | some emT => some (t ++ emT)
      | none => none
    | Except.error err =>
      match err.toTokens, emitter.toTokens with
      | some errT, some emT => some (tokens ++ errT ++ emT)
      | _, _ => none

/-- `manyhow::attribute`: as `function`, but with two inputs; the dummy is
seeded from the annotated item iff `item_as_dummy`. -/
def attributeEntry (input item : TokenStream) (itemAsDummy : Bool) (body : AttrBody) :
    Option TokenStream :=
  match body input item (if itemAsDummy then item else []) Emitter.new with
  | (output, tokens, emitter) =>
    match output.convert with
    | Except.ok t =>
      match emitter.toTokens with
      | some emT => some (t ++ emT)
      | none => none
    | Except.error err =>
      match err.toTokens, emitter.toTokens with
      | some errT, some emT => some (tokens ++ errT ++ emT)
      | _, _ => none

/-- `manyhow::derive`: as `function`, but the dummy always starts empty. -/
def derive (item : TokenStream) (body : FnBody) : Option TokenStream :=
  match body item [] Emitter.new with
  | (output, tokens, emitter) =>
    match output.convert with
    | Except.ok t =>
      match emitter.toTokens with
      | some emT => some (t ++ emT)
      | none => none
    | Except.error err =>
      match err.toTokens, emitter.toTokens with
      | some errT, some emT => some (tokens ++ errT ++ emT)
      | _, _ => none

/-- The `error_message!("while parsing attribute argument (`#[... (...)]`)")`
value built inside `ManyhowParse::manyhow_parse` (syn instance). -/
def attrNoteMessage : ErrorMessage :=
  ErrorMessage.callSite "while parsing attribute argument (`#[... (...)]`)"

/-- The token form of `attrNoteMessage` as appended to the parse failure. -/
def attrNote : TokenStream :=
  [Tok.compileError Manyhow.callSite Manyhow.callSite attrNoteMessage.msg]

/-- `ManyhowParse` for a syn-parseable type: run the external structured parse
(whose failure already carries its own `compile_error!` rendering, i.e.
`e.into_compile_error()`), and when `attr` is set and the input stream was
empty, append the "while parsing attribute argument" note to the failure. -/
def manyhowParseSyn {α : Type} (parse : TokenStream → Except TokenStream α)
    (input : TokenStream) (attr : Bool) : Except TokenStream α :=
  match parse input with
  | Except.ok v => Except.ok v
  | Except.error e =>
    Except.error (if attr && input.isEmpty then e ++ attrNote else e)

/-- `ManyhowParse` for token-stream types (`impl<T: Into<TokenStream> + ..>
ManyhowParse<T> for WhatType<T>`): always succeeds with the input itself. -/
def manyhowParseTS (input : TokenStream) (_attr : Bool) : Except TokenStream TokenStream :=
  Except.ok input

/-- The output of a transformation in the macro (`function!`/`attribute!`/
`derive!`) pipeline: either a bare `ToTokens` value (already in token form
here) or a `Result` of one with a single `ToTokensError` error. -/
inductive TransOut where
  | bare (ts : TokenStream)
  | result (r : Except Diag TokenStream)

/-- `ManyhowTry`: a bare value is infallibly `Ok` (the `Infallible` instance),
a `Result` is passed through unchanged. -/
def TransOut.manyhowTry : TransOut → Except Diag TokenStream
  | .bare ts => Except.ok ts
  | .result r => r

/-- Bodies used by the transparent handlers, generic in the parsed input
type(s). -/
abbrev TransBody (α : Type) := α → TokenStream → Emitter → TransOut × TokenStream × Emitter

abbrev TransBody2 (α β : Type) := α → β → TokenStream → Emitter → TransOut × TokenStream × Emitter

/-- `function_transparent`: initialize the dummy from the optional seed; if
the input's parse failed, extend the dummy with the failure tokens and return
it as the terminal output (the body is never invoked); otherwise run the body
with a fresh emitter and return `(output, rendered emitter, final dummy)`. -/
def functionTransparent {α : Type} (input : Except TokenStream α)
    (dummyOpt : Option TokenStream) (body : TransBody α) :
    Option (Except TokenStream (TransOut × TokenStream × TokenStream)) :=
  let dummy := dummyOpt.getD []
  match input with
  | Except.error toks => some (Except.error (dummy ++ toks))
  | Except.ok inp =>
    match body inp dummy Emitter.new with
    | (output, dummy, emitter) =>
      match emitter.toTokens with
      | some emT => some (Except.ok (output, emT, dummy))
      | none => none

/-- `derive_transparent`: as `function_transparent` but without a dummy seed
parameter (the dummy starts empty). -/
def deriveTransparent {α : Type} (item : Except TokenStream α) (body : TransBody α) :
    Option (Except TokenStream (TransOut × TokenStream × TokenStream)) :=
  match item with
  | Except.error toks => some (Except.error ([] ++ toks))
  | Except.ok it =>
    match body it [] Emitter.new with
    | (output, dummy, emitter) =>
      match emitter.toTokens with
      | some emT => some (Except.ok (output, emT, dummy))
      | none => none

/-- `attribute_transparent`: two inputs, checked in declaration order; the
first failed parse extends the current dummy and terminates. -/
def attributeTransparent {α β : Type} (input : Except TokenStream α)
    (item : Except TokenStream β) (dummyOpt : Option TokenStream)
    (body : TransBody2 α β) :
    Option (Except TokenStream (TransOut × TokenStream × TokenStream)) :=
  let dummy := dummyOpt.getD []
  match input with
  | Except.error toks => some (Except.error (dummy ++ toks))
  | Except.ok inp =>
    match item with
    | Except.error toks => some (Except.error (dummy ++ toks))
    | Except.ok it =>
      match body inp it dummy Emitter.new with
      | (output, dummy, emitter) =>
        match emitter.toTokens with
        | some emT => some (Except.ok (output, emT, dummy))
        | none => none

/-- The tail of the `__macro_handler!` expansion: a terminal `Err(tokens)` is
returned as-is; on `Ok((output, tokens, dummy))` (where `tokens` is the
emitter rendering) the output is tried: an error extends the dummy with the
emitter tokens and then appends the rendered error, a success is appended
after the emitter tokens. -/
def macroHandler
    (res : Option (Except TokenStream (TransOut × TokenStream × TokenStream))) :
    Option TokenStream :=
  match res with
  | none => none
  | some (Except.error toks) => some toks
  | some (Except.ok (output, tokens, dummy)) =>
    match output.manyhowTry with
    | Except.error err =>
      match err.toTokens with
      | some errT => some (dummy ++ tokens ++ errT)
      | none => none
    | Except.ok out => some (tokens ++ out)

/-- The `function!` macro: parse the input (`attr = false`), seed the dummy
from the raw input iff `#[as_dummy]` was given, then run the common handler. -/
def functionBang {α : Type} (parse : TokenStream → Bool → Except TokenStream α)
    (asDummy : Bool) (input : TokenStream) (body : TransBody α) : Option TokenStream :=
  macroHandler (functionTransparent (parse input false)
    (if asDummy then some input else none) body)

/-- The `attribute!` macro: parse the attribute argument with `attr = true`
and the item with `attr = false`; seed the dummy from the raw item iff
`#[as_dummy]` was given. -/
def attributeBang {α β : Type} (parseInput : TokenStream → Bool → Except TokenStream α)
    (parseItem : TokenStream → Bool → Except TokenStream β) (asDummy : Bool)
    (input item : TokenStream) (body : TransBody2 α β) : Option TokenStream :=
  macroHandler (attributeTransparent (parseInput input true) (parseItem item false)
    (if asDummy then some item else none) body)

/-- The `derive!` macro. -/
def deriveBang {α : Type} (parse : TokenStream → Bool → Except TokenStream α)
    (item : TokenStream) (body : TransBody α) : Option TokenStream :=
  macroHandler (deriveTransparent (parse item false) body)

/-! ## Helper lemmas -/

theorem errToTokens_append (a b : List Diag) (ta tb : TokenStream)
    (ha : errToTokens a = some ta) (hb : errToTokens b = some tb) :
    errToTokens (a ++ b) = some (ta ++ tb) := by
  induction a generalizing ta with
  | nil =>
    simp [errToTokens] at ha
    simp [ha, hb]
  | cons d tl ih =>
    rw [errToTokens] at ha
    cases hd : d.toTokens with
    | none => rw [hd] at ha; simp at ha
    | some td =>
      rw [hd] at ha
      cases htl : errToTokens tl with
      | none => rw [htl] at ha; simp at ha
      | some ttl =>
        rw [htl] at ha
        simp at ha
        rw [List.cons_append, errToTokens, hd, ih ttl htl]
        simp [← ha]

theorem emitter_new_toTokens : Emitter.new.toTokens = some [] := rfl

/-! ## Claims -/

/-- C2: after `e.emit(d1); e.emit(d2)` on a fresh emitter, the first
`into_result` returns `Err` of the collection `[d1, d2]` in insertion order
and leaves the emitter empty, so a second `into_result` returns `Ok(())`; and
on any empty emitter, `into_result` returns `Ok(())` without changing it. -/
theorem emitter_intoResult_drains (d1 d2 : Diag) (e0 : Emitter) (h : e0.isEmpty = true) :
    ((Emitter.new.emit d1).emit d2).intoResult = (Except.error [d1, d2], Emitter.mk []) ∧
    (((Emitter.new.emit d1).emit d2).intoResult.2).intoResult = (Except.ok (), Emitter.mk []) ∧
    e0.intoResult = (Except.ok (), e0) := by
  refine ⟨rfl, rfl, ?_⟩
  simp [Emitter.intoResult, h]

/-- Witness for C2 at concrete diagnostics and the fresh empty emitter. -/
theorem emitter_intoResult_drains_witness :
    ((Emitter.new.emit Diag.silent).emit Diag.silent).intoResult =
      (Except.error [Diag.silent, Diag.silent], Emitter.mk []) ∧
    (((Emitter.new.emit Diag.silent).emit Diag.silent).intoResult.2).intoResult =
      (Except.ok (), Emitter.mk []) ∧
    Emitter.new.intoResult = (Except.ok (), Emitter.new) :=
  emitter_intoResult_drains Diag.silent Diag.silent Emitter.new rfl

/-- C4: `SilentError` converts (via `From<SilentError> for Error`) into an
error collection with zero elements whose token rendering is empty, and a
function-like invocation on input `struct X;` with `input_as_dummy = true`
whose body returns `Err(SilentError)` outputs exactly the input tokens. -/
theorem silentError_renders_nothing :
    Error.fromSilentError = ([] : Error) ∧
    Error.toTokens Error.fromSilentError = some [] ∧
    (∀ input : TokenStream,
      function input true (fun _ d e => (MacroOut.result (Except.error Diag.silent), d, e)) =
        some input) ∧
    function [Tok.raw ("struct"), Tok.raw ("X"), Tok.raw (";")] true
        (fun _ d e => (MacroOut.result (Except.error Diag.silent), d, e)) =
      some [Tok.raw ("struct"), Tok.raw ("X"), Tok.raw (";")] := by
  refine ⟨rfl, rfl, ?_, ?_⟩
  · intro input
    simp [function, MacroOut.convert, Error.fromToTokensError, Error.toTokens, errToTokens,
      Diag.toTokens, Emitter.toTokens, Emitter.new]
  · simp [function, MacroOut.convert, Error.fromToTokensError, Error.toTokens, errToTokens,
      Diag.toTokens, Emitter.toTokens, Emitter.new]

/-- C5: output normalization round-trip: a bare stream converts to `Ok`,
`Ok(t)` converts to `Ok(t)`, `Err(e)` converts to `Err(Error::from(e))`, and
converting an already-built error collection preserves it (its token
rendering is unchanged). -/
theorem macroOutput_convert_roundtrip :
    (∀ t : TokenStream, (MacroOut.stream t).convert = Except.ok t) ∧
    (∀ t : TokenStream, (MacroOut.result (Except.ok (MacroOut.stream t))).convert = Except.ok t) ∧
    (∀ e : Diag, (MacroOut.result (Except.error e)).convert =
      Except.error (Error.fromToTokensError e)) ∧
    (∀ es : Error, Error.toTokens (Error.fromToTokensError (Diag.nested es)) =
      Error.toTokens es) := by
  refine ⟨fun t => rfl, fun t => rfl, fun e => rfl, fun es => ?_⟩
  show errToTokens [Diag.nested es] = errToTokens es
  rw [errToTokens, Diag.toTokens]
  cases h : errToTokens es with
  | none => simp
  | some b => simp [errToTokens]

theorem renderAttachments_of_empty_text (ats : List (String × String)) (label : String)
    (h : (label, "") ∈ ats) : renderAttachments ats = none := by
  induction ats with
  | nil => simp at h
  | cons hd tl ih =>
    obtain ⟨l, t⟩ := hd
    rcases List.mem_cons.mp h with heq | hmem
    · obtain ⟨hl, ht⟩ := Prod.mk.injEq .. ▸ heq
      subst ht
      rfl
    · rw [renderAttachments]
      cases rustLines t with
      | nil => rfl
      | cons first rest => rw [ih hmem]

/-- C9: rendering an `ErrorMessage` carrying an attachment whose text is the
empty string panics (modelled as `none`), both for the string rendering and
the token rendering: the `Display` impl demands at least one line from each
attachment text. -/
theorem errorMessage_empty_attachment_panics (m : ErrorMessage) (label : String)
    (h : (label, "") ∈ m.attachments) :
    m.render = none ∧ Diag.toTokens (Diag.message m) = none := by
  have hats : renderAttachments m.attachments = none :=
    renderAttachments_of_empty_text m.attachments label h
  constructor
  · rw [ErrorMessage.render, hats]; rfl
  · rw [Diag.toTokens, ErrorMessage.render, hats]; rfl

/-- Witness for C9 at a concrete message with an empty `note` attachment. -/
theorem errorMessage_empty_attachment_panics_witness :
    (ErrorMessage.mk 0 0 "x" [("note", "")]).render = none ∧
    Diag.toTokens (Diag.message (ErrorMessage.mk 0 0 "x" [("note", "")])) = none :=
  errorMessage_empty_attachment_panics (ErrorMessage.mk 0 0 "x" [("note", "")]) "note"
    (by simp)

/-- C1: for a function-like invocation with `input_as_dummy = true` and a
body that fails, the output is the fallback buffer followed by the rendered
error: the original input tokens when the body leaves the dummy alone, and
the newly assigned fallback tokens when the body overwrites the dummy. -/
theorem function_fallback_seeding_and_override
    (input newT : TokenStream) (out : MacroOut) (err : Error) (errT : TokenStream)
    (hconv : out.convert = Except.error err) (herr : Error.toTokens err = some errT) :
    function input true (fun _ d e => (out, d, e)) = some (input ++ errT) ∧
    function input true (fun _ _ e => (out, newT, e)) = some (newT ++ errT) := by
  constructor <;>
    simp [function, hconv, herr, Emitter.toTokens, Emitter.new, errToTokens]

/-- Witness for C1: a concrete failing body, once leaving the dummy alone and
once overwriting it. -/
theorem function_fallback_seeding_and_override_witness :
    function [Tok.raw ("some"), Tok.raw ("input")] true
        (fun _ d e =>
          (MacroOut.result (Except.error (Diag.message (ErrorMessage.callSite ("oops")))), d, e)) =
      some ([Tok.raw ("some"), Tok.raw ("input")] ++
        [Tok.compileError Manyhow.callSite Manyhow.callSite ("oops")]) ∧
    function [Tok.raw ("some"), Tok.raw ("input")] true
        (fun _ _ e =>
          (MacroOut.result (Except.error (Diag.message (ErrorMessage.callSite ("oops")))),
            [Tok.raw ("another"), Tok.raw ("input")], e)) =
      some ([Tok.raw ("another"), Tok.raw ("input")] ++
        [Tok.compileError Manyhow.callSite Manyhow.callSite ("oops")]) :=
  function_fallback_seeding_and_override
    [Tok.raw ("some"), Tok.raw ("input")] [Tok.raw ("another"), Tok.raw ("input")]
    (MacroOut.result (Except.error (Diag.message (ErrorMessage.callSite ("oops")))))
    [Diag.message (ErrorMessage.callSite ("oops"))]
    [Tok.compileError Manyhow.callSite Manyhow.callSite ("oops")]
    rfl (by decide)

/-- C7: an error collection built by `extend([d1, d2])` then `push(d3)`
renders to the concatenation of the three token forms in that order, and
`extend` preserves relative order in general. -/
theorem error_extend_push_order
    (e0 : Error) (d1 d2 d3 : Diag) (t0 t1 t2 t3 : TokenStream)
    (h0 : Error.toTokens e0 = some t0) (h1 : d1.toTokens = some t1)
    (h2 : d2.toTokens = some t2) (h3 : d3.toTokens = some t3) :
    Error.toTokens (Error.push (Error.extendErr e0 [d1, d2]) d3) =
      some (t0 ++ t1 ++ t2 ++ t3) ∧
    (∀ (a b : Error) (ta tb : TokenStream), Error.toTokens a = some ta →
      Error.toTokens b = some tb →
      Error.toTokens (Error.extendErr a b) = some (ta ++ tb)) := by
  have single : ∀ (d : Diag) (t : TokenStream), d.toTokens = some t →
      errToTokens [d] = some t := by
    intro d t h
    rw [errToTokens, h, errToTokens]
    simp
  constructor
  · have ha := errToTokens_append e0 [d1] t0 t1 h0 (single d1 t1 h1)
    have hb := errToTokens_append (e0 ++ [d1]) [d2] (t0 ++ t1) t2 ha (single d2 t2 h2)
    have hc := errToTokens_append ((e0 ++ [d1]) ++ [d2]) [d3] ((t0 ++ t1) ++ t2) t3 hb
      (single d3 t3 h3)
    have harr : Error.push (Error.extendErr e0 [d1, d2]) d3 = ((e0 ++ [d1]) ++ [d2]) ++ [d3] := by
      simp [Error.push, Error.extendErr]
    rw [harr]
    exact hc
  · intro a b ta tb hta htb
    exact errToTokens_append a b ta tb hta htb

/-- Witness for C7 at three concrete externally-rendered diagnostics. -/
theorem error_extend_push_order_witness :
    Error.toTokens (Error.push (Error.extendErr []
        [Diag.external [Tok.raw ("a")], Diag.external [Tok.raw ("b")]])
        (Diag.external [Tok.raw ("c")])) =
      some ([] ++ [Tok.raw ("a")] ++ [Tok.raw ("b")] ++ [Tok.raw ("c")]) ∧
    (∀ (a b : Error) (ta tb : TokenStream), Error.toTokens a = some ta →
      Error.toTokens b = some tb →
      Error.toTokens (Error.extendErr a b) = some (ta ++ tb)) :=
  error_extend_push_order [] (Diag.external [Tok.raw ("a")]) (Diag.external [Tok.raw ("b")])
    (Diag.external [Tok.raw ("c")]) [] [Tok.raw ("a")] [Tok.raw ("b")] [Tok.raw ("c")]
    rfl rfl rfl rfl

/-- C10: whenever the body's normalized output is `Ok`, every plain entry
point returns only the converted output plus the undrained emitter
diagnostics; the fallback buffer (whether pre-seeded or written to by the
body) does not appear in the result. -/
theorem success_discards_dummy
    (input item : TokenStream) (flag : Bool)
    (bodyF : FnBody) (outF : MacroOut) (dF : TokenStream) (emF : Emitter) (tF emTF : TokenStream)
    (hbF : bodyF input (if flag then input else []) Emitter.new = (outF, dF, emF))
    (hcF : outF.convert = Except.ok tF) (heF : emF.toTokens = some emTF)
    (bodyA : AttrBody) (outA : MacroOut) (dA : TokenStream) (emA : Emitter) (tA emTA : TokenStream)
    (hbA : bodyA input item (if flag then item else []) Emitter.new = (outA, dA, emA))
    (hcA : outA.convert = Except.ok tA) (heA : emA.toTokens = some emTA)
    (bodyD : FnBody) (outD : MacroOut) (dD : TokenStream) (emD : Emitter) (tD emTD : TokenStream)
    (hbD : bodyD item [] Emitter.new = (outD, dD, emD))
    (hcD : outD.convert = Except.ok tD) (heD : emD.toTokens = some emTD) :
    function input flag bodyF = some (tF ++ emTF) ∧
    attributeEntry input item flag bodyA = some (tA ++ emTA) ∧
    derive item bodyD = some (tD ++ emTD) := by
  refine ⟨?_, ?_, ?_⟩
  · simp [function, hbF, hcF, heF]
  · simp [attributeEntry, hbA, hcA, heA]
  · simp [derive, hbD, hcD, heD]

/-- Witness for C10: bodies that write junk into the pre-seeded dummy and
still succeed; the junk and the seed are both discarded. -/
theorem success_discards_dummy_witness :
    function [Tok.raw ("in")] true
        (fun _ d e => (MacroOut.stream [Tok.raw ("out")], d ++ [Tok.raw ("junk")], e)) =
      some ([Tok.raw ("out")] ++ []) ∧
    attributeEntry [Tok.raw ("in")] [Tok.raw ("it")] true
        (fun _ _ d e => (MacroOut.stream [Tok.raw ("out")], d ++ [Tok.raw ("junk")], e)) =
      some ([Tok.raw ("out")] ++ []) ∧
    derive [Tok.raw ("it")]
        (fun _ d e => (MacroOut.stream [Tok.raw ("out")], d ++ [Tok.raw ("junk")], e)) =
      some ([Tok.raw ("out")] ++ []) :=
  success_discards_dummy [Tok.raw ("in")] [Tok.raw ("it")] true
    (fun _ d e => (MacroOut.stream [Tok.raw ("out")], d ++ [Tok.raw ("junk")], e))
    (MacroOut.stream [Tok.raw ("out")]) ([Tok.raw ("in")] ++ [Tok.raw ("junk")]) Emitter.new
    [Tok.raw ("out")] [] rfl rfl rfl
    (fun _ _ d e => (MacroOut.stream [Tok.raw ("out")], d ++ [Tok.raw ("junk")], e))
    (MacroOut.stream [Tok.raw ("out")]) ([Tok.raw ("it")] ++ [Tok.raw ("junk")]) Emitter.new
    [Tok.raw ("out")] [] rfl rfl rfl
    (fun _ d e => (MacroOut.stream [Tok.raw ("out")], d ++ [Tok.raw ("junk")], e))
    (MacroOut.stream [Tok.raw ("out")]) ([] ++ [Tok.raw ("junk")]) Emitter.new
    [Tok.raw ("out")] [] rfl rfl rfl

/-- C8: when a required input's structured parse fails, the body is never
invoked (the result is the same for every body) and the output is the
fallback buffer with the failure tokens merged in; for the attribute-like
entry point the "while parsing attribute argument" note is attached if and
only if the failing attribute-argument stream was empty.  The last conjunct
identifies the note with the rendering of the corresponding error message. -/
theorem parse_failure_skips_body
    {α β : Type} (rawParse : TokenStream → Except TokenStream α)
    (parseItem : TokenStream → Bool → Except TokenStream β)
    (input item e eI : TokenStream) (inp : α)
    (hfail : rawParse input = Except.error e) :
    (∀ body : TransBody2 α β,
      attributeBang (manyhowParseSyn rawParse) parseItem true input item body =
        some (item ++ (if input.isEmpty then e ++ attrNote else e))) ∧
    (∀ body : TransBody2 α β,
      macroHandler (attributeTransparent (Except.ok inp) (Except.error eI) (some item) body) =
        some (item ++ eI)) ∧
    (∀ (dummyOpt : Option TokenStream) (body : TransBody α),
      macroHandler (functionTransparent (Except.error e) dummyOpt body) =
        some (dummyOpt.getD [] ++ e)) ∧
    Diag.toTokens (Diag.message attrNoteMessage) = some attrNote := by
  refine ⟨?_, ?_, ?_, by decide⟩
  · intro body
    simp [attributeBang, manyhowParseSyn, hfail, attributeTransparent, macroHandler]
  · intro body
    simp [attributeTransparent, macroHandler]
  · intro dummyOpt body
    simp [functionTransparent, macroHandler]

/-- Witness for C8 (end-to-end scenario C): empty attribute arguments whose
parse fails, an annotated item used as dummy; the output is the item followed
by the parse failure and the contextual note. -/
theorem parse_failure_skips_body_witness :
    attributeBang (α := TokenStream) (β := TokenStream)
        (manyhowParseSyn (fun _ => Except.error [Tok.raw ("synerr")]))
        manyhowParseTS true [] [Tok.raw ("fn"), Tok.raw ("test")]
        (fun _ _ d e => (TransOut.bare [], d, e)) =
      some ([Tok.raw ("fn"), Tok.raw ("test")] ++ ([Tok.raw ("synerr")] ++ attrNote)) ∧
    macroHandler (attributeTransparent (β := TokenStream) (Except.ok ([] : TokenStream))
        (Except.error [Tok.raw ("eI")]) (some [Tok.raw ("fn"), Tok.raw ("test")])
        (fun _ _ d e => (TransOut.bare [], d, e))) =
      some ([Tok.raw ("fn"), Tok.raw ("test")] ++ [Tok.raw ("eI")]) ∧
    macroHandler (functionTransparent (α := TokenStream)
        (Except.error [Tok.raw ("synerr")])
        (some [Tok.raw ("seed")]) (fun _ d e => (TransOut.bare [], d, e))) =
      some ((some [Tok.raw ("seed")]).getD [] ++ [Tok.raw ("synerr")]) :=
  have h := parse_failure_skips_body (α := TokenStream) (β := TokenStream)
    (fun _ => Except.error [Tok.raw ("synerr")])
    manyhowParseTS [] [Tok.raw ("fn"), Tok.raw ("test")] [Tok.raw ("synerr")]
    [Tok.raw ("eI")] ([] : TokenStream) rfl
  ⟨h.1 (fun _ _ d e => (TransOut.bare [], d, e)),
    h.2.1 (fun _ _ d e => (TransOut.bare [], d, e)),
    h.2.2.1 (some [Tok.raw ("seed")]) (fun _ d e => (TransOut.bare [], d, e))⟩

/-- Counterexample to C3 as stated: in the macro pipeline an emitted
diagnostic is placed BEFORE the primary success output, not appended after
it.  A body that emits one message and returns the tokens `out` produces the
compile-error token first and `out` second. -/
theorem emitter_not_appended_after_counterexample :
    macroHandler (functionTransparent (Except.ok ([Tok.raw ("in")] : TokenStream)) none
        (fun _ d e => (TransOut.bare [Tok.raw ("out")], d,
          e.emit (Diag.message (ErrorMessage.callSite ("oops")))))) =
      some [Tok.compileError Manyhow.callSite Manyhow.callSite ("oops"), Tok.raw ("out")] ∧
    [Tok.compileError Manyhow.callSite Manyhow.callSite ("oops"), Tok.raw ("out")] ≠
      [Tok.raw ("out"), Tok.compileError Manyhow.callSite Manyhow.callSite ("oops")] := by
  exact ⟨by decide, by decide⟩

/-- C3 (amended): every emitted, undrained diagnostic appears in the final
output exactly once; in the plain entry points it is appended after the
primary success output (or after the fallback-plus-error failure output),
while in the macro pipeline it is placed before the success output, and on
failure after the fallback buffer but before the rendered error. -/
theorem emitter_always_rendered_order
    (input : TokenStream) (flag : Bool) (body : FnBody)
    (out : MacroOut) (dOut : TokenStream) (em : Emitter) (emT : TokenStream)
    (hb : body input (if flag then input else []) Emitter.new = (out, dOut, em))
    (hem : em.toTokens = some emT)
    {α : Type} (inp : α) (dummyOpt : Option TokenStream) (bodyM : TransBody α)
    (outM : TransOut) (dM : TokenStream) (emM : Emitter) (emTM : TokenStream)
    (hbM : bodyM inp (dummyOpt.getD []) Emitter.new = (outM, dM, emM))
    (hemM : emM.toTokens = some emTM) :
    (∀ t, out.convert = Except.ok t → function input flag body = some (t ++ emT)) ∧
    (∀ err errT, out.convert = Except.error err → Error.toTokens err = some errT →
      function input flag body = some (dOut ++ errT ++ emT)) ∧
    (∀ t, outM.manyhowTry = Except.ok t →
      macroHandler (functionTransparent (Except.ok inp) dummyOpt bodyM) = some (emTM ++ t)) ∧
    (∀ errD errT, outM.manyhowTry = Except.error errD → errD.toTokens = some errT →
      macroHandler (functionTransparent (Except.ok inp) dummyOpt bodyM) =
        some (dM ++ emTM ++ errT)) := by
  refine ⟨?_, ?_, ?_, ?_⟩
  · intro t hc
    simp [function, hb, hc, hem]
  · intro err errT hc he
    simp [function, hb, hc, he, hem]
  · intro t hc
    simp [functionTransparent, macroHandler, hbM, hc, hemM]
  · intro errD errT hc he
    simp [functionTransparent, macroHandler, hbM, hc, he, hemM]

/-- Witness for the amended C3: one emitted diagnostic, exercising the plain
success path and the macro failure path at concrete inputs. -/
theorem emitter_always_rendered_order_witness :
    (function [Tok.raw ("in")] false
        (fun _ d e => (MacroOut.stream [Tok.raw ("out")], d,
          e.emit (Diag.external [Tok.raw ("em")]))) =
      some ([Tok.raw ("out")] ++ [Tok.raw ("em")])) ∧
    (macroHandler (functionTransparent (Except.ok ([Tok.raw ("in")] : TokenStream)) none
        (fun _ _ e => (TransOut.result (Except.error (Diag.external [Tok.raw ("err")])),
          [Tok.raw ("dm")], e.emit (Diag.external [Tok.raw ("em")])))) =
      some ([Tok.raw ("dm")] ++ [Tok.raw ("em")] ++ [Tok.raw ("err")])) :=
  have h := emitter_always_rendered_order [Tok.raw ("in")] false
    (fun _ d e => (MacroOut.stream [Tok.raw ("out")], d, e.emit (Diag.external [Tok.raw ("em")])))
    (MacroOut.stream [Tok.raw ("out")]) [] (Emitter.new.emit (Diag.external [Tok.raw ("em")]))
    [Tok.raw ("em")] rfl rfl
    (α := TokenStream) [Tok.raw ("in")] none
    (fun _ _ e => (TransOut.result (Except.error (Diag.external [Tok.raw ("err")])),
      [Tok.raw ("dm")], e.emit (Diag.external [Tok.raw ("em")])))
    (TransOut.result (Except.error (Diag.external [Tok.raw ("err")]))) [Tok.raw ("dm")]
    (Emitter.new.emit (Diag.external [Tok.raw ("em")])) [Tok.raw ("em")] rfl rfl
  ⟨h.1 [Tok.raw ("out")] rfl,
    h.2.2.2 (Diag.external [Tok.raw ("err")]) [Tok.raw ("err")] rfl rfl⟩

theorem string_mk_append (a b : List Char) : String.mk a ++ String.mk b = String.mk (a ++ b) :=
  rfl

theorem spaces_concat (n : Nat) : "    " ++ spaces n ++ "  " = spaces (n + 6) := by
  have h4 : "    " = spaces 4 := by decide
  have h2 : "  " = spaces 2 := by decide
  rw [h4, h2, spaces, spaces, spaces, string_mk_append, string_mk_append]
  apply congrArg
  rw [show n + 6 = 4 + (n + 2) by omega, List.replicate_add, List.replicate_add,
    List.append_assoc]

theorem renderAttachment_formula (label first : String) (rest : List String) :
    renderAttachment label first rest =
      "  = " ++ label ++ ": " ++ first ++ "\n" ++
        strConcat (rest.map (fun line => spaces (label.length + 6) ++ line ++ "\n")) := by
  rw [renderAttachment]
  apply congrArg
  apply congrArg
  apply List.map_congr_left
  intro line _
  rw [spaces_concat]

theorem renderAttachments_formula (ats : List (String × String)) (a : String)
    (h : renderAttachments ats = some a) :
    a = strConcat (ats.map (fun la =>
      "  = " ++ la.1 ++ ": " ++ ((rustLines la.2).headD "") ++ "\n" ++
      strConcat (((rustLines la.2).tail).map
        (fun line => spaces (la.1.length + 6) ++ line ++ "\n")))) := by
  induction ats generalizing a with
  | nil =>
    rw [renderAttachments] at h
    simp at h
    simp [← h, strConcat]
  | cons hd tl ih =>
    obtain ⟨label, text⟩ := hd
    rw [renderAttachments] at h
    cases hl : rustLines text with
    | nil => rw [hl] at h; simp at h
    | cons first rest =>
      rw [hl] at h
      cases hr : renderAttachments tl with
      | none => rw [hr] at h; simp at h
      | some r =>
        rw [hr] at h
        simp at h
        rw [← h, List.map_cons, strConcat, ih r hr, hl]
        simp [renderAttachment_formula]

/-- Counterexample to C6 as stated: for the message `m` with the two-line
attachment `note: a\nb`, the code indents the continuation line by
`label length + 6` spaces (aligning under the first character after `": "`),
not by `label length + 2 + 2` spaces under the colon as the claim says. -/
theorem attachment_indent_counterexample :
    (ErrorMessage.mk 0 0 "m" [("note", "a\nb")]).render =
      some ("m\n\n  = note: a\n          b\n") ∧
    claimRender (ErrorMessage.mk 0 0 "m" [("note", "a\nb")]) =
      some ("m\n\n  = note: a\n        b\n") ∧
    (ErrorMessage.mk 0 0 "m" [("note", "a\nb")]).render ≠
      claimRender (ErrorMessage.mk 0 0 "m" [("note", "a\nb")]) := by
  exact ⟨by decide, by decide, by decide⟩

/-- C6 (amended): the rendered string is the right-trimmed primary message,
a blank line iff there is at least one attachment, then per attachment the
line `  = {label}: {first line}` with each continuation line indented by
label length + 2 leading spaces + 2 for the `= ` marker + 2 for the `: `
separator (label length + 6 in total), aligning under the first character
after the colon-space. -/
theorem errorMessage_render_formula (m : ErrorMessage) (s : String)
    (h : m.render = some s) :
    s = trimEnd m.msg ++ (if m.attachments.isEmpty then "" else "\n\n") ++
      strConcat (m.attachments.map (fun la =>
        "  = " ++ la.1 ++ ": " ++ ((rustLines la.2).headD "") ++ "\n" ++
        strConcat (((rustLines la.2).tail).map
          (fun line => spaces (la.1.length + 6) ++ line ++ "\n")))) := by
  rw [ErrorMessage.render] at h
  cases ha : renderAttachments m.attachments with
  | none => rw [ha] at h; simp at h
  | some a =>
    rw [ha] at h
    simp at h
    rw [← h, renderAttachments_formula m.attachments a ha]
    simp [List.isEmpty_iff]

/-- Witness for the amended C6 at the message of the repository's own unit
test (four single-line attachments). -/
theorem errorMessage_render_formula_witness :
    "test message\n\n  = help: try to call your dog\n  = note: you could use the banana phone\n  = warning: be careful\n  = error: you cannot reach them\n" =
      trimEnd (ErrorMessage.mk 0 0 "test message"
          [("help", "try to call your dog"), ("note", "you could use the banana phone"),
            ("warning", "be careful"), ("error", "you cannot reach them")]).msg ++
        (if (ErrorMessage.mk 0 0 "test message"
          [("help", "try to call your dog"), ("note", "you could use the banana phone"),
            ("warning", "be careful"), ("error", "you cannot reach them")]).attachments.isEmpty
          then "" else "\n\n") ++
        strConcat ((ErrorMessage.mk 0 0 "test message"
          [("help", "try to call your dog"), ("note", "you could use the banana phone"),
            ("warning", "be careful"), ("error", "you cannot reach them")]).attachments.map
          (fun la =>
            "  = " ++ la.1 ++ ": " ++ ((rustLines la.2).headD "") ++ "\n" ++
            strConcat (((rustLines la.2).tail).map
              (fun line => spaces (la.1.length + 6) ++ line ++ "\n")))) :=
  errorMessage_render_formula
    (ErrorMessage.mk 0 0 "test message"
      [("help", "try to call your dog"), ("note", "you could use the banana phone"),
        ("warning", "be careful"), ("error", "you cannot reach them")])
    "test message\n\n  = help: try to call your dog\n  = note: you could use the banana phone\n  = warning: be careful\n  = error: you cannot reach them\n"
    (by decide)

end Manyhow
